import Mathlib

/-!
# Verification model of boost::scope::unique_resource

Shallow embedding of src/include/boost/scope/unique_resource.hpp.

Resource values and deleter values are modelled as integers, treated
opaquely except for the equality comparison used by
make_unique_resource_checked.  A deleter invocation is observable as an
Inv record (which deleter value was called, on which resource value);
every operation returns the list of invocations it performed, in order.

C++ exceptions are modelled by explicit boolean injection flags:

* compile-time nothrow dispatch (std::true_type / std::false_type tags
  selecting a constructor or swap_impl overload) becomes a Bool parameter
  of the dispatching definition, mirroring the source dispatch;
* a potentially throwing step (a resource or deleter constructor, an
  assignment, a swap, or a deleter invocation) takes a Bool (or a
  predicate, for deleter invocations) saying whether that step raises.

An operation that can propagate an exception returns the post-states of
all guards involved together with a thrown flag, so that theorems can
speak about the state left behind on the exceptional path.  Construction
and assignment of resource and deleter values are value-preserving, as
in the source (a moved or copied value compares equal to the original).
-/

set_option autoImplicit false

namespace BoostScope

/-- One observable deleter invocation: the deleter value that was called
and the resource value it was called on. -/
structure Inv where
  del : Int
  res : Int
deriving DecidableEq, Repr

/-- Result of a constructor that may propagate an exception: either the
constructed object or no object at all. -/
inductive CtorResult (α : Type) where
  | ok (g : α)
  | threw
deriving DecidableEq, Repr

/-- Deleter-invocation injection that never raises. -/
def noThrow : Int → Int → Bool := fun _ _ => false

/-!
## Flag-tracked storage

Models the primary specialization
unique_resource_data< Resource, Deleter, Traits, false >: resource,
deleter and an explicit m_allocated boolean.
-/

/-- State of the flag-tracked unique_resource_data specialization. -/
structure unique_resource_data where
  resource : Int
  deleter : Int
  m_allocated : Bool
deriving DecidableEq, Repr

namespace unique_resource_data

/-- unique_resource_data::is_allocated: reads the boolean flag. -/
def is_allocated (d : unique_resource_data) : Bool :=
  d.m_allocated

/-- unique_resource_data::set_deallocated: clears the flag, leaving the
resource and deleter values untouched. -/
def set_deallocated (d : unique_resource_data) : unique_resource_data :=
  { d with m_allocated := false }

/-- unique_resource_data::assign_resource: assigns the new resource value
and unconditionally sets the flag. -/
def assign_resource (d : unique_resource_data) (r : Int) : unique_resource_data :=
  { d with resource := r, m_allocated := true }

end unique_resource_data

/-!
## Traits capability and traits-tracked storage

Models the specialization unique_resource_data< Resource, Deleter,
Traits, true >, selected when use_deallocated_state holds: the traits
type supplies make_default and is_allocated (both noexcept), and there
is no m_allocated field.
-/

/-- A resource-traits capability: the canonical default value and the
allocation predicate.  Both are pure total functions, mirroring the
noexcept requirement of the source. -/
structure Traits where
  make_default : Int
  is_allocated : Int → Bool

namespace TraitsTracked

/-- State of the traits-tracked unique_resource_data specialization:
no allocation flag is stored. -/
structure Data where
  resource : Int
  deleter : Int
deriving DecidableEq, Repr

/-- Traits-tracked is_allocated: computed by the traits predicate on the
current resource value. -/
def is_allocated (tr : Traits) (d : Data) : Bool :=
  tr.is_allocated d.resource

/-- Traits-tracked set_deallocated: reassigns the resource to the traits
default value. -/
def set_deallocated (tr : Traits) (d : Data) : Data :=
  { d with resource := tr.make_default }

/-- Traits-tracked assign_resource: assigns the value only; allocation
state is derived from it. -/
def assign_resource (d : Data) (r : Int) : Data :=
  { d with resource := r }

end TraitsTracked

/-!
## Construction from a resource and a deleter

Models unique_resource_data(R&& res, D&& del), which builds
resource_holder(res, del, allocated) and then
deleter_holder(del, stored resource, allocated).  The holders catch a
construction failure and, when the allocated argument is set, invoke the
deleter before re-raising: the resource_holder on the constructor
argument, the deleter_holder on the already-constructed stored resource
(both hold the same value in this model).  The flag-tracked constructor
passes allocated = true; the traits-tracked constructor passes
allocated = Traits::is_allocated(res).

resCtorThrows / delCtorThrows inject a failure of the corresponding
stored-value constructor; a nothrow constructor corresponds to the flag
being false.
-/

/-- Flag-tracked unique_resource_data(R&&, D&&) with injected
construction failures. -/
def construct (res del : Int) (resCtorThrows delCtorThrows : Bool) :
    CtorResult unique_resource_data × List Inv :=
  if resCtorThrows then
    (CtorResult.threw, [⟨del, res⟩])
  else if delCtorThrows then
    (CtorResult.threw, [⟨del, res⟩])
  else
    (CtorResult.ok ⟨res, del, true⟩, [])

/-- Traits-tracked unique_resource_data(R&&, D&&) with injected
construction failures: the allocated argument passed to the holders is
computed by the traits predicate. -/
def TraitsTracked.construct (tr : Traits) (res del : Int)
    (resCtorThrows delCtorThrows : Bool) :
    CtorResult TraitsTracked.Data × List Inv :=
  let allocated := tr.is_allocated res
  if resCtorThrows then
    (CtorResult.threw, if allocated then [⟨del, res⟩] else [])
  else if delCtorThrows then
    (CtorResult.threw, if allocated then [⟨del, res⟩] else [])
  else
    (CtorResult.ok ⟨res, del⟩, [])

/-!
## reset, destructor, release

unique_resource::reset() invokes the deleter on the resource when
allocated, then calls set_deallocated; if the deleter raises,
set_deallocated is not reached.  The destructor is exactly reset().
release() is set_deallocated without any deleter call.
-/

/-- Outcome of an operation on one guard: post-state, invocation log,
and whether an exception propagated. -/
structure ResetOut (α : Type) where
  g : α
  log : List Inv
  thrown : Bool
deriving DecidableEq, Repr

/-- unique_resource::reset() on flag-tracked data.  The predicate dt
says whether invoking deleter d on resource r raises. -/
def reset (dt : Int → Int → Bool) (g : unique_resource_data) :
    ResetOut unique_resource_data :=
  if g.is_allocated then
    if dt g.deleter g.resource then
      ⟨g, [⟨g.deleter, g.resource⟩], true⟩
    else
      ⟨g.set_deallocated, [⟨g.deleter, g.resource⟩], false⟩
  else
    ⟨g, [], false⟩

/-- unique_resource::reset() on traits-tracked data. -/
def TraitsTracked.reset (tr : Traits) (dt : Int → Int → Bool)
    (d : TraitsTracked.Data) : ResetOut TraitsTracked.Data :=
  if TraitsTracked.is_allocated tr d then
    if dt d.deleter d.resource then
      ⟨d, [⟨d.deleter, d.resource⟩], true⟩
    else
      ⟨TraitsTracked.set_deallocated tr d, [⟨d.deleter, d.resource⟩], false⟩
  else
    ⟨d, [], false⟩

/-- unique_resource::release() on flag-tracked data. -/
def release (g : unique_resource_data) : unique_resource_data :=
  g.set_deallocated

/-- unique_resource::release() on traits-tracked data. -/
def TraitsTracked.release (tr : Traits) (d : TraitsTracked.Data) :
    TraitsTracked.Data :=
  TraitsTracked.set_deallocated tr d

/-!
## reset with a replacement resource

unique_resource::reset(R&& res) dispatches on whether both the deleter
invocation and the resource assignment are noexcept.  The noexcept
overload runs reset() then assign_resource(res).  The throwing overload
wraps the same sequence in try/catch; the catch invokes the stored
deleter on the replacement value and re-raises.  assignThrows injects a
failure of the resource assignment.
-/

/-- reset_impl(res, std::true_type) on flag-tracked data: the noexcept
path, no deleter-invocation or assignment failure is possible. -/
def reset_impl_nothrow (newRes : Int) (g : unique_resource_data) :
    ResetOut unique_resource_data :=
  let r := reset noThrow g
  ⟨r.g.assign_resource newRes, r.log, false⟩

/-- reset_impl(res, std::false_type) on flag-tracked data: reset() and
the assignment run inside a try block; on failure the stored deleter is
invoked on the replacement value and the exception propagates. -/
def reset_impl_throwing (dt : Int → Int → Bool) (assignThrows : Bool)
    (newRes : Int) (g : unique_resource_data) :
    ResetOut unique_resource_data :=
  let r := reset dt g
  if r.thrown then
    ⟨r.g, r.log ++ [⟨r.g.deleter, newRes⟩], true⟩
  else if assignThrows then
    ⟨r.g, r.log ++ [⟨r.g.deleter, newRes⟩], true⟩
  else
    ⟨r.g.assign_resource newRes, r.log, false⟩

/-- unique_resource::reset(R&& res) on flag-tracked data: dispatch on
the compile-time nothrow test, as in the source. -/
def reset_r (nothrowOps : Bool) (dt : Int → Int → Bool)
    (assignThrows : Bool) (newRes : Int) (g : unique_resource_data) :
    ResetOut unique_resource_data :=
  if nothrowOps then reset_impl_nothrow newRes g
  else reset_impl_throwing dt assignThrows newRes g

/-- reset_impl(res, std::true_type) on traits-tracked data. -/
def TraitsTracked.reset_impl_nothrow (tr : Traits) (newRes : Int)
    (d : TraitsTracked.Data) : ResetOut TraitsTracked.Data :=
  let r := TraitsTracked.reset tr noThrow d
  ⟨TraitsTracked.assign_resource r.g newRes, r.log, false⟩

/-- reset_impl(res, std::false_type) on traits-tracked data. -/
def TraitsTracked.reset_impl_throwing (tr : Traits)
    (dt : Int → Int → Bool) (assignThrows : Bool) (newRes : Int)
    (d : TraitsTracked.Data) : ResetOut TraitsTracked.Data :=
  let r := TraitsTracked.reset tr dt d
  if r.thrown then
    ⟨r.g, r.log ++ [⟨r.g.deleter, newRes⟩], true⟩
  else if assignThrows then
    ⟨r.g, r.log ++ [⟨r.g.deleter, newRes⟩], true⟩
  else
    ⟨TraitsTracked.assign_resource r.g newRes, r.log, false⟩

/-!
## Move construction

unique_resource_data(unique_resource_data&& that) dispatches on whether
the stored deleter is nothrow move-constructible.

The true_type overload moves (or copies) the resource, constructs the
deleter with the allocated argument false (no eager cleanup possible),
copies the allocation state and clears it in the source.

The false_type overload is a function-try-block: it transfers the
resource first, then constructs the deleter with the allocated argument
(resource move is nothrow) AND (source allocated) so that the
deleter_holder frees the resource eagerly only when the source will no
longer track it; on a failure, the catch clause clears the source
allocation state exactly when the resource move was nothrow, and
otherwise leaves the source fully intact.

resMoveNothrow is the compile-time fact that the internal resource type
is nothrow constructible from resource&&; resCtorThrows injects a
failure of the resource copy (only reachable when the move is not
nothrow); delCtorThrows injects a failure of the deleter construction.
-/

/-- Outcome of a move construction: the constructed guard when no
exception propagated, the post-state of the move source, the invocation
log, and the thrown flag. -/
structure MoveOut (α : Type) where
  dst : Option α
  src : α
  log : List Inv
  thrown : Bool
deriving DecidableEq, Repr

/-- Flag-tracked unique_resource_data(that, std::true_type): the deleter
move cannot fail. -/
def move_construct_nothrow (that : unique_resource_data) :
    MoveOut unique_resource_data :=
  { dst := some ⟨that.resource, that.deleter, that.m_allocated⟩
    src := that.set_deallocated
    log := []
    thrown := false }

/-- Flag-tracked unique_resource_data(that, std::false_type) with
injected failures. -/
def move_construct_throwing (resMoveNothrow resCtorThrows delCtorThrows : Bool)
    (that : unique_resource_data) : MoveOut unique_resource_data :=
  if !resMoveNothrow && resCtorThrows then
    { dst := none, src := that, log := [], thrown := true }
  else
    let newRes := that.resource
    let delHolderAllocated := resMoveNothrow && that.m_allocated
    if delCtorThrows then
      { dst := none
        src := if resMoveNothrow then that.set_deallocated else that
        log := if delHolderAllocated then [⟨that.deleter, newRes⟩] else []
        thrown := true }
    else
      { dst := some ⟨newRes, that.deleter, that.m_allocated⟩
        src := that.set_deallocated
        log := []
        thrown := false }

/-- Flag-tracked unique_resource_data(unique_resource_data&&): dispatch
on whether the deleter is nothrow move-constructible. -/
def unique_resource_move (delMoveNothrow resMoveNothrow resCtorThrows delCtorThrows : Bool)
    (that : unique_resource_data) : MoveOut unique_resource_data :=
  if delMoveNothrow then move_construct_nothrow that
  else move_construct_throwing resMoveNothrow resCtorThrows delCtorThrows that

/-- Traits-tracked unique_resource_data(that, std::true_type). -/
def TraitsTracked.move_construct_nothrow (tr : Traits)
    (that : TraitsTracked.Data) : MoveOut TraitsTracked.Data :=
  { dst := some ⟨that.resource, that.deleter⟩
    src := TraitsTracked.set_deallocated tr that
    log := []
    thrown := false }

/-- Traits-tracked unique_resource_data(that, std::false_type) with
injected failures.  The allocated argument of the deleter_holder is
computed with is_allocated() of the freshly transferred resource. -/
def TraitsTracked.move_construct_throwing (tr : Traits)
    (resMoveNothrow resCtorThrows delCtorThrows : Bool)
    (that : TraitsTracked.Data) : MoveOut TraitsTracked.Data :=
  if !resMoveNothrow && resCtorThrows then
    { dst := none, src := that, log := [], thrown := true }
  else
    let newRes := that.resource
    let delHolderAllocated := resMoveNothrow && tr.is_allocated newRes
    if delCtorThrows then
      { dst := none
        src := if resMoveNothrow then TraitsTracked.set_deallocated tr that else that
        log := if delHolderAllocated then [⟨that.deleter, newRes⟩] else []
        thrown := true }
    else
      { dst := some ⟨newRes, that.deleter⟩
        src := TraitsTracked.set_deallocated tr that
        log := []
        thrown := false }

/-!
## Move assignment of the facade

unique_resource::operator=(unique_resource&&) first calls reset() on the
target and only then move-assigns the data; if the reset raises, the
data assignment is never reached and both objects keep their state.  The
data assignment itself (which assigns deleter and resource in a nothrow
order, copies the source flag and clears it) is modelled on its
non-throwing instantiation; the claims under verification concern the
reset step.
-/

/-- Outcome of a facade move assignment. -/
structure AssignOut where
  target : unique_resource_data
  source : unique_resource_data
  log : List Inv
  thrown : Bool
deriving DecidableEq, Repr

/-- unique_resource::operator=(unique_resource&&) on flag-tracked data
with a possibly raising deleter invocation inside the initial reset. -/
def move_assign (dt : Int → Int → Bool)
    (this that : unique_resource_data) : AssignOut :=
  let r := reset dt this
  if r.thrown then
    { target := r.g, source := that, log := r.log, thrown := true }
  else
    { target := ⟨that.resource, that.deleter, that.m_allocated⟩
      source := that.set_deallocated
      log := r.log
      thrown := false }

/-!
## Swap

unique_resource_data::swap dispatches on (resource nothrow swappable,
both nothrow swappable).  When only one side is nothrow swappable, the
nothrow part is swapped first and the throwing part runs in a try block
whose catch swaps the nothrow part back and re-raises.  A throwing swap
step is modelled as leaving its operands unchanged.  The flags are
swapped last, in the no-throw region.
-/

/-- Swap the resource values of two flag-tracked states. -/
def swap_resources (a b : unique_resource_data) :
    unique_resource_data × unique_resource_data :=
  ({ a with resource := b.resource }, { b with resource := a.resource })

/-- Swap the deleter values of two flag-tracked states. -/
def swap_deleters (a b : unique_resource_data) :
    unique_resource_data × unique_resource_data :=
  ({ a with deleter := b.deleter }, { b with deleter := a.deleter })

/-- Swap the allocation flags of two flag-tracked states. -/
def swap_flags (a b : unique_resource_data) :
    unique_resource_data × unique_resource_data :=
  ({ a with m_allocated := b.m_allocated }, { b with m_allocated := a.m_allocated })

/-- Outcome of a swap: both post-states and the thrown flag. -/
structure SwapOut (α : Type) where
  a : α
  b : α
  thrown : Bool
deriving DecidableEq, Repr

/-- swap_impl(that, std::true_type, std::true_type) on flag-tracked
data: both parts nothrow swappable. -/
def swap_impl_tt (a b : unique_resource_data) : SwapOut unique_resource_data :=
  let p1 := swap_resources a b
  let p2 := swap_deleters p1.1 p1.2
  let p3 := swap_flags p2.1 p2.2
  ⟨p3.1, p3.2, false⟩

/-- swap_impl(that, std::true_type, std::false_type) on flag-tracked
data: resource swapped first, deleter swap may raise, in which case the
resource swap is undone. -/
def swap_impl_rf (delSwapThrows : Bool) (a b : unique_resource_data) :
    SwapOut unique_resource_data :=
  let p1 := swap_resources a b
  if delSwapThrows then
    let p2 := swap_resources p1.1 p1.2
    ⟨p2.1, p2.2, true⟩
  else
    let p2 := swap_deleters p1.1 p1.2
    let p3 := swap_flags p2.1 p2.2
    ⟨p3.1, p3.2, false⟩

/-- swap_impl(that, std::false_type, std::false_type) on flag-tracked
data: deleter swapped first, resource swap may raise, in which case the
deleter swap is undone. -/
def swap_impl_fr (resSwapThrows : Bool) (a b : unique_resource_data) :
    SwapOut unique_resource_data :=
  let p1 := swap_deleters a b
  if resSwapThrows then
    let p2 := swap_deleters p1.1 p1.2
    ⟨p2.1, p2.2, true⟩
  else
    let p2 := swap_resources p1.1 p1.2
    let p3 := swap_flags p2.1 p2.2
    ⟨p3.1, p3.2, false⟩

/-- unique_resource_data::swap on flag-tracked data: dispatch on the two
compile-time nothrow-swappable facts, as in the source. -/
def swap (resNothrowSwap delNothrowSwap resSwapThrows delSwapThrows : Bool)
    (a b : unique_resource_data) : SwapOut unique_resource_data :=
  if resNothrowSwap && delNothrowSwap then swap_impl_tt a b
  else if resNothrowSwap then swap_impl_rf delSwapThrows a b
  else swap_impl_fr resSwapThrows a b

/-- Swap the resource values of two traits-tracked states. -/
def TraitsTracked.swap_resources (a b : TraitsTracked.Data) :
    TraitsTracked.Data × TraitsTracked.Data :=
  ({ a with resource := b.resource }, { b with resource := a.resource })

/-- Swap the deleter values of two traits-tracked states. -/
def TraitsTracked.swap_deleters (a b : TraitsTracked.Data) :
    TraitsTracked.Data × TraitsTracked.Data :=
  ({ a with deleter := b.deleter }, { b with deleter := a.deleter })

/-- swap_impl(that, std::true_type, std::true_type) on traits-tracked
data. -/
def TraitsTracked.swap_impl_tt (a b : TraitsTracked.Data) :
    SwapOut TraitsTracked.Data :=
  let p1 := TraitsTracked.swap_resources a b
  let p2 := TraitsTracked.swap_deleters p1.1 p1.2
  ⟨p2.1, p2.2, false⟩

/-- swap_impl(that, std::true_type, std::false_type) on traits-tracked
data. -/
def TraitsTracked.swap_impl_rf (delSwapThrows : Bool)
    (a b : TraitsTracked.Data) : SwapOut TraitsTracked.Data :=
  let p1 := TraitsTracked.swap_resources a b
  if delSwapThrows then
    let p2 := TraitsTracked.swap_resources p1.1 p1.2
    ⟨p2.1, p2.2, true⟩
  else
    let p2 := TraitsTracked.swap_deleters p1.1 p1.2
    ⟨p2.1, p2.2, false⟩

/-- swap_impl(that, std::false_type, std::false_type) on traits-tracked
data. -/
def TraitsTracked.swap_impl_fr (resSwapThrows : Bool)
    (a b : TraitsTracked.Data) : SwapOut TraitsTracked.Data :=
  let p1 := TraitsTracked.swap_deleters a b
  if resSwapThrows then
    let p2 := TraitsTracked.swap_deleters p1.1 p1.2
    ⟨p2.1, p2.2, true⟩
  else
    let p2 := TraitsTracked.swap_resources p1.1 p1.2
    ⟨p2.1, p2.2, false⟩

/-- unique_resource_data::swap on traits-tracked data. -/
def TraitsTracked.swap (resNothrowSwap delNothrowSwap resSwapThrows delSwapThrows : Bool)
    (a b : TraitsTracked.Data) : SwapOut TraitsTracked.Data :=
  if resNothrowSwap && delNothrowSwap then TraitsTracked.swap_impl_tt a b
  else if resNothrowSwap then TraitsTracked.swap_impl_rf delSwapThrows a b
  else TraitsTracked.swap_impl_fr resSwapThrows a b

/-!
## Checked construction helper

make_unique_resource_checked(res, invalid, del) compares res to invalid;
when unequal it builds unique_resource(res, del) (flag-tracked, flag set
to true), otherwise unique_resource(default_resource_t, del), whose
resource_holder default-constructs the resource value (0 for the integer
model) and whose flag is false.
-/

/-- make_unique_resource_checked on the integer model. -/
def make_unique_resource_checked (res invalid del : Int) :
    unique_resource_data :=
  if !(res == invalid) then
    { resource := res, deleter := del, m_allocated := true }
  else
    { resource := 0, deleter := del, m_allocated := false }

/-- Exactly one of two flag-tracked guards is allocated. -/
def exactlyOneAllocated (h g : unique_resource_data) : Bool :=
  xor h.m_allocated g.m_allocated

/-- A sample conforming traits capability: default value -1, allocated
means nonnegative.  Used to instantiate universally quantified theorems
at a concrete input. -/
def tr0 : Traits :=
  { make_default := -1, is_allocated := fun r => decide (0 ≤ r) }

/-!
## Theorems
-/

/-- C1: a guard constructed from an allocated resource value and a deleter is
destroyed by an implicit reset that invokes the deleter exactly once, on that
resource value, and leaves the guard unallocated, so that a repeated reset or
destruction performs no further invocation.  Stated for the flag-tracked
specialization (where a constructed guard is always allocated) and for the
traits-tracked specialization (where the traits predicate classifies the
resource as allocated). -/
theorem destructor_invokes_deleter_once
    (res del rs dl : Int) (dt : Int → Int → Bool) (tr : Traits)
    (halloc : tr.is_allocated rs = true)
    (hconf : tr.is_allocated tr.make_default = false) :
    construct res del false false = (CtorResult.ok ⟨res, del, true⟩, []) ∧
    (reset noThrow ⟨res, del, true⟩).log = [⟨del, res⟩] ∧
    (reset noThrow ⟨res, del, true⟩).g.is_allocated = false ∧
    (reset dt (reset noThrow ⟨res, del, true⟩).g).log = [] ∧
    TraitsTracked.construct tr rs dl false false = (CtorResult.ok ⟨rs, dl⟩, []) ∧
    (TraitsTracked.reset tr noThrow ⟨rs, dl⟩).log = [⟨dl, rs⟩] ∧
    TraitsTracked.is_allocated tr (TraitsTracked.reset tr noThrow ⟨rs, dl⟩).g = false ∧
    (TraitsTracked.reset tr dt (TraitsTracked.reset tr noThrow ⟨rs, dl⟩).g).log = [] := by
  refine ⟨rfl, ?_, ?_, ?_, ?_, ?_, ?_, ?_⟩ <;>
    simp [reset, TraitsTracked.reset, TraitsTracked.construct,
      TraitsTracked.is_allocated, TraitsTracked.set_deallocated,
      unique_resource_data.is_allocated, unique_resource_data.set_deallocated,
      noThrow, halloc, hconf]

/-- Witness for C1 at a concrete input. -/
theorem destructor_invokes_deleter_once_witness :
    tr0.is_allocated 5 = true ∧
    tr0.is_allocated tr0.make_default = false ∧
    construct 3 7 false false = (CtorResult.ok ⟨3, 7, true⟩, []) ∧
    (reset noThrow ⟨3, 7, true⟩).log = [⟨7, 3⟩] ∧
    (reset noThrow ⟨3, 7, true⟩).g.is_allocated = false ∧
    (reset noThrow (reset noThrow ⟨3, 7, true⟩).g).log = [] ∧
    TraitsTracked.construct tr0 5 9 false false = (CtorResult.ok ⟨5, 9⟩, []) ∧
    (TraitsTracked.reset tr0 noThrow ⟨5, 9⟩).log = [⟨9, 5⟩] ∧
    TraitsTracked.is_allocated tr0 (TraitsTracked.reset tr0 noThrow ⟨5, 9⟩).g = false ∧
    (TraitsTracked.reset tr0 noThrow (TraitsTracked.reset tr0 noThrow ⟨5, 9⟩).g).log = [] := by
  have h := destructor_invokes_deleter_once 3 7 5 9 noThrow tr0 (by decide) (by decide)
  exact ⟨by decide, by decide, h.1, h.2.1, h.2.2.1, h.2.2.2.1, h.2.2.2.2.1,
    h.2.2.2.2.2.1, h.2.2.2.2.2.2.1, h.2.2.2.2.2.2.2⟩

/-- C3: when, constructing a guard from an allocated resource value and a
deleter, the constructor of the stored resource or of the stored deleter
raises, the deleter is invoked exactly once on the resource value before the
exception propagates, and no guard object is produced.  Stated for both
storage specializations. -/
theorem construct_failure_invokes_deleter
    (res del rs dl : Int) (rT dT : Bool) (tr : Traits)
    (hthrow : rT = true ∨ dT = true)
    (halloc : tr.is_allocated rs = true) :
    construct res del rT dT = (CtorResult.threw, [⟨del, res⟩]) ∧
    TraitsTracked.construct tr rs dl rT dT = (CtorResult.threw, [⟨dl, rs⟩]) := by
  rcases hthrow with h | h <;> subst h
  · cases dT <;> simp [construct, TraitsTracked.construct, halloc]
  · cases rT <;> simp [construct, TraitsTracked.construct, halloc]

/-- Witness for C3 at a concrete input. -/
theorem construct_failure_invokes_deleter_witness :
    (false = true ∨ true = true) ∧
    tr0.is_allocated 5 = true ∧
    construct 3 7 false true = (CtorResult.threw, [⟨7, 3⟩]) ∧
    TraitsTracked.construct tr0 5 9 false true = (CtorResult.threw, [⟨9, 5⟩]) := by
  have h := construct_failure_invokes_deleter 3 7 5 9 false true tr0
    (Or.inr rfl) (by decide)
  exact ⟨Or.inr rfl, by decide, h.1, h.2⟩

/-- C8: make_unique_resource_checked compares the resource to the invalid
sentinel by equality; when unequal it returns an allocated guard owning the
resource with the given deleter, whose destruction invokes that deleter on
that resource exactly once; when equal it returns an unallocated guard that
still stores the deleter, whose destruction invokes nothing. -/
theorem make_unique_resource_checked_spec (res invalid del : Int) :
    make_unique_resource_checked res invalid del =
      (if res = invalid then ⟨0, del, false⟩ else ⟨res, del, true⟩) ∧
    (make_unique_resource_checked res invalid del).deleter = del ∧
    (make_unique_resource_checked res invalid del).is_allocated =
      !(res == invalid) ∧
    (reset noThrow (make_unique_resource_checked res invalid del)).log =
      (if res = invalid then [] else [⟨del, res⟩]) ∧
    (reset noThrow (make_unique_resource_checked res invalid del)).g.is_allocated =
      false := by
  by_cases h : res = invalid <;>
    simp [make_unique_resource_checked, h, reset, noThrow,
      unique_resource_data.is_allocated, unique_resource_data.set_deallocated]

/-- C9: release marks the guard unallocated without invoking the deleter, and
destroying the guard afterwards invokes the deleter zero times.  Stated for
both storage specializations. -/
theorem release_disarms
    (g : unique_resource_data) (dt : Int → Int → Bool) (tr : Traits)
    (d : TraitsTracked.Data)
    (hconf : tr.is_allocated tr.make_default = false) :
    release g = { g with m_allocated := false } ∧
    (release g).is_allocated = false ∧
    (reset dt (release g)).log = [] ∧
    (reset dt (release g)).thrown = false ∧
    TraitsTracked.is_allocated tr (TraitsTracked.release tr d) = false ∧
    (TraitsTracked.reset tr dt (TraitsTracked.release tr d)).log = [] := by
  refine ⟨rfl, rfl, ?_, ?_, ?_, ?_⟩ <;>
    simp [reset, TraitsTracked.reset, release, TraitsTracked.release,
      TraitsTracked.is_allocated, TraitsTracked.set_deallocated,
      unique_resource_data.is_allocated, unique_resource_data.set_deallocated,
      hconf]

/-- Witness for C9 at a concrete input. -/
theorem release_disarms_witness :
    tr0.is_allocated tr0.make_default = false ∧
    release ⟨3, 7, true⟩ = ⟨3, 7, false⟩ ∧
    (release ⟨3, 7, true⟩).is_allocated = false ∧
    (reset noThrow (release ⟨3, 7, true⟩)).log = [] ∧
    (reset noThrow (release ⟨3, 7, true⟩)).thrown = false ∧
    TraitsTracked.is_allocated tr0 (TraitsTracked.release tr0 ⟨5, 9⟩) = false ∧
    (TraitsTracked.reset tr0 noThrow (TraitsTracked.release tr0 ⟨5, 9⟩)).log = [] := by
  have h := release_disarms ⟨3, 7, true⟩ noThrow tr0 ⟨5, 9⟩ (by decide)
  exact ⟨by decide, h.1, h.2.1, h.2.2.1, h.2.2.2.1, h.2.2.2.2.1, h.2.2.2.2.2⟩

/-- C10: when the deleter invocation inside reset raises (also via the
implicit reset in the destructor or in move assignment), the guard keeps its
resource, deleter and allocated state unchanged, so a subsequent reset or
destruction attempts the deleter invocation again on the same resource; in a
failed move assignment the move source is also left unchanged. -/
theorem reset_failure_preserves_state
    (dt dt2 : Int → Int → Bool) (g that : unique_resource_data)
    (halloc : g.m_allocated = true)
    (hthrow : dt g.deleter g.resource = true) :
    reset dt g = ⟨g, [⟨g.deleter, g.resource⟩], true⟩ ∧
    move_assign dt g that = ⟨g, that, [⟨g.deleter, g.resource⟩], true⟩ ∧
    (reset dt2 g).log = [⟨g.deleter, g.resource⟩] := by
  refine ⟨?_, ?_, ?_⟩ <;>
    simp [reset, move_assign, unique_resource_data.is_allocated,
      unique_resource_data.set_deallocated, halloc, hthrow]
  cases h2 : dt2 g.deleter g.resource <;> simp

/-- Witness for C10 at a concrete input. -/
theorem reset_failure_preserves_state_witness :
    (⟨3, 7, true⟩ : unique_resource_data).m_allocated = true ∧
    (fun _ _ => true : Int → Int → Bool) 7 3 = true ∧
    reset (fun _ _ => true) ⟨3, 7, true⟩ = ⟨⟨3, 7, true⟩, [⟨7, 3⟩], true⟩ ∧
    move_assign (fun _ _ => true) ⟨3, 7, true⟩ ⟨4, 8, false⟩ =
      ⟨⟨3, 7, true⟩, ⟨4, 8, false⟩, [⟨7, 3⟩], true⟩ ∧
    (reset noThrow ⟨3, 7, true⟩).log = [⟨7, 3⟩] := by
  have h := reset_failure_preserves_state (fun _ _ => true) noThrow
    ⟨3, 7, true⟩ ⟨4, 8, false⟩ rfl rfl
  exact ⟨rfl, rfl, h.1, h.2.1, h.2.2⟩

/-- C2 counterexample: moving from an unallocated guard leaves neither guard
allocated, so the clause that exactly one of the two guards is allocated after
every move construction fails at this input. -/
theorem move_from_unallocated_cex :
    (unique_resource_move true true false false ⟨5, 7, false⟩).dst =
      some ⟨5, 7, false⟩ ∧
    (unique_resource_move true true false false ⟨5, 7, false⟩).src =
      ⟨5, 7, false⟩ ∧
    exactlyOneAllocated ⟨5, 7, false⟩
      (unique_resource_move true true false false ⟨5, 7, false⟩).src = false := by
  decide

/-- C2 (amended): after a successful move construction the new guard holds the
prior resource, deleter and allocated state of the source and the source is
unallocated; hence at most one of the two is allocated — exactly one when the
source was allocated before the move — and destroying both invokes the
deleter at most once in total. -/
theorem move_construct_transfers_ownership
    (dmn rmn rT dT : Bool) (that h : unique_resource_data)
    (hsucc : (unique_resource_move dmn rmn rT dT that).dst = some h) :
    h = ⟨that.resource, that.deleter, that.m_allocated⟩ ∧
    (unique_resource_move dmn rmn rT dT that).src = that.set_deallocated ∧
    (unique_resource_move dmn rmn rT dT that).log = [] ∧
    (that.m_allocated = true →
      exactlyOneAllocated h (unique_resource_move dmn rmn rT dT that).src = true) ∧
    (reset noThrow h).log.length +
      (reset noThrow (unique_resource_move dmn rmn rT dT that).src).log.length ≤ 1 := by
  have hmain : unique_resource_move dmn rmn rT dT that =
      { dst := some ⟨that.resource, that.deleter, that.m_allocated⟩,
        src := that.set_deallocated, log := [], thrown := false } := by
    cases dmn <;> cases rmn <;> cases rT <;> cases dT <;>
      simp_all [unique_resource_move, move_construct_nothrow,
        move_construct_throwing, unique_resource_data.set_deallocated]
  rw [hmain] at hsucc ⊢
  injection hsucc with hh
  subst hh
  refine ⟨rfl, rfl, rfl, ?_, ?_⟩
  · intro hm
    simp [exactlyOneAllocated, hm, unique_resource_data.set_deallocated]
  · cases hm : that.m_allocated <;>
      simp [reset, noThrow, unique_resource_data.is_allocated,
        unique_resource_data.set_deallocated, hm]

/-- Witness for the amended C2 at a concrete input. -/
theorem move_construct_transfers_ownership_witness :
    (unique_resource_move true true false false ⟨3, 7, true⟩).dst =
      some ⟨3, 7, true⟩ ∧
    (⟨3, 7, true⟩ : unique_resource_data) = ⟨3, 7, true⟩ ∧
    (unique_resource_move true true false false ⟨3, 7, true⟩).src =
      (⟨3, 7, true⟩ : unique_resource_data).set_deallocated ∧
    (unique_resource_move true true false false ⟨3, 7, true⟩).log = [] ∧
    exactlyOneAllocated ⟨3, 7, true⟩
      (unique_resource_move true true false false ⟨3, 7, true⟩).src = true ∧
    (reset noThrow ⟨3, 7, true⟩).log.length +
      (reset noThrow
        (unique_resource_move true true false false ⟨3, 7, true⟩).src).log.length ≤ 1 := by
  have h := move_construct_transfers_ownership true true false false
    ⟨3, 7, true⟩ ⟨3, 7, true⟩ (by decide)
  exact ⟨by decide, h.1, h.2.1, h.2.2.1, h.2.2.2.1 rfl, h.2.2.2.2⟩

/-- C4: in the move-construction path for a possibly throwing deleter, when
the deleter construction raises after the resource step, the source is
deactivated exactly when the resource transfer was a nothrow move — and then
the log shows the cleanup already performed by the deleter invocation from
the construction failure when the source was allocated — while after a copy
construction of the resource the source is left fully intact, with resource
value and allocation state unchanged and no deleter invocation.  Stated for
both storage specializations. -/
theorem move_deleter_ctor_failure_source_state
    (rmn : Bool) (that : unique_resource_data) (tr : Traits)
    (td : TraitsTracked.Data) :
    move_construct_throwing rmn false true that =
      { dst := none,
        src := if rmn then that.set_deallocated else that,
        log := if rmn && that.m_allocated then [⟨that.deleter, that.resource⟩] else [],
        thrown := true } ∧
    TraitsTracked.move_construct_throwing tr rmn false true td =
      { dst := none,
        src := if rmn then TraitsTracked.set_deallocated tr td else td,
        log := if rmn && tr.is_allocated td.resource then [⟨td.deleter, td.resource⟩] else [],
        thrown := true } := by
  cases rmn <;>
    simp [move_construct_throwing, TraitsTracked.move_construct_throwing]

/-- C5: reset with a replacement value first runs the plain reset — invoking
the deleter exactly once on the previous resource when the guard was
allocated — then assigns the replacement, after which the flag-tracked guard
is allocated and the traits-tracked guard has its allocation state
re-evaluated from the replacement value; and when the assignment raises, the
stored deleter is invoked on the replacement value before the exception
propagates.  Stated for both reset_impl instantiations and both storage
specializations. -/
theorem reset_with_value_spec
    (dt : Int → Int → Bool) (newRes : Int) (g : unique_resource_data)
    (tr : Traits) (d : TraitsTracked.Data)
    (hnt : dt g.deleter g.resource = false)
    (hnt2 : dt d.deleter d.resource = false) :
    reset_r true dt false newRes g =
      ⟨⟨newRes, g.deleter, true⟩,
        if g.m_allocated then [⟨g.deleter, g.resource⟩] else [], false⟩ ∧
    reset_r false dt false newRes g =
      ⟨⟨newRes, g.deleter, true⟩,
        if g.m_allocated then [⟨g.deleter, g.resource⟩] else [], false⟩ ∧
    (reset_impl_throwing dt true newRes g).log =
      (if g.m_allocated then [⟨g.deleter, g.resource⟩] else []) ++
        [⟨g.deleter, newRes⟩] ∧
    (reset_impl_throwing dt true newRes g).thrown = true ∧
    TraitsTracked.reset_impl_throwing tr dt false newRes d =
      ⟨⟨newRes, d.deleter⟩,
        if tr.is_allocated d.resource then [⟨d.deleter, d.resource⟩] else [], false⟩ ∧
    TraitsTracked.reset_impl_nothrow tr newRes d =
      ⟨⟨newRes, d.deleter⟩,
        if tr.is_allocated d.resource then [⟨d.deleter, d.resource⟩] else [], false⟩ ∧
    TraitsTracked.is_allocated tr ⟨newRes, d.deleter⟩ = tr.is_allocated newRes ∧
    (TraitsTracked.reset_impl_throwing tr dt true newRes d).log =
      (if tr.is_allocated d.resource then [⟨d.deleter, d.resource⟩] else []) ++
        [⟨d.deleter, newRes⟩] ∧
    (TraitsTracked.reset_impl_throwing tr dt true newRes d).thrown = true := by
  refine ⟨?_, ?_, ?_, ?_, ?_, ?_, rfl, ?_, ?_⟩ <;>
  · cases hm : g.m_allocated <;> cases hta : tr.is_allocated d.resource <;>
      simp [reset_r, reset_impl_nothrow, reset_impl_throwing, reset,
        TraitsTracked.reset_impl_nothrow, TraitsTracked.reset_impl_throwing,
        TraitsTracked.reset, TraitsTracked.is_allocated,
        TraitsTracked.set_deallocated, TraitsTracked.assign_resource,
        unique_resource_data.is_allocated, unique_resource_data.set_deallocated,
        unique_resource_data.assign_resource, noThrow, hm, hta, hnt, hnt2]

/-- Witness for C5 at a concrete input. -/
theorem reset_with_value_spec_witness :
    noThrow 7 3 = false ∧
    noThrow 9 5 = false ∧
    reset_r true noThrow false 4 ⟨3, 7, true⟩ =
      ⟨⟨4, 7, true⟩, [⟨7, 3⟩], false⟩ ∧
    reset_r false noThrow false 4 ⟨3, 7, true⟩ =
      ⟨⟨4, 7, true⟩, [⟨7, 3⟩], false⟩ ∧
    (reset_impl_throwing noThrow true 4 ⟨3, 7, true⟩).log = [⟨7, 3⟩, ⟨7, 4⟩] ∧
    (reset_impl_throwing noThrow true 4 ⟨3, 7, true⟩).thrown = true ∧
    TraitsTracked.reset_impl_throwing tr0 noThrow false 4 ⟨5, 9⟩ =
      ⟨⟨4, 9⟩, [⟨9, 5⟩], false⟩ ∧
    TraitsTracked.is_allocated tr0 ⟨4, 9⟩ = tr0.is_allocated 4 ∧
    (TraitsTracked.reset_impl_throwing tr0 noThrow true 4 ⟨5, 9⟩).log =
      [⟨9, 5⟩, ⟨9, 4⟩] ∧
    (TraitsTracked.reset_impl_throwing tr0 noThrow true 4 ⟨5, 9⟩).thrown = true := by
  have h := reset_with_value_spec noThrow 4 ⟨3, 7, true⟩ tr0 ⟨5, 9⟩ rfl rfl
  refine ⟨rfl, rfl, ?_, ?_, ?_, h.2.2.2.1, ?_, h.2.2.2.2.2.2.1, ?_, h.2.2.2.2.2.2.2.2⟩
  · simpa using h.1
  · simpa using h.2.1
  · simpa using h.2.2.1
  · simpa using h.2.2.2.2.1
  · simpa using h.2.2.2.2.2.2.2.1

/-- C6: when a swap raises after one of the two parts was already swapped,
the already swapped part is swapped back before the exception propagates, so
on an exceptional exit both guards hold exactly their pre-call resource,
deleter and allocation state.  Stated for both storage specializations. -/
theorem swap_failure_rolls_back
    (rn dn rT dT : Bool) (a b : unique_resource_data)
    (ta tb : TraitsTracked.Data)
    (h1 : (swap rn dn rT dT a b).thrown = true)
    (h2 : (TraitsTracked.swap rn dn rT dT ta tb).thrown = true) :
    (swap rn dn rT dT a b).a = a ∧ (swap rn dn rT dT a b).b = b ∧
    (TraitsTracked.swap rn dn rT dT ta tb).a = ta ∧
    (TraitsTracked.swap rn dn rT dT ta tb).b = tb := by
  cases rn <;> cases dn <;> cases rT <;> cases dT <;>
    simp_all [swap, swap_impl_tt, swap_impl_rf, swap_impl_fr,
      swap_resources, swap_deleters, swap_flags,
      TraitsTracked.swap, TraitsTracked.swap_impl_tt,
      TraitsTracked.swap_impl_rf, TraitsTracked.swap_impl_fr,
      TraitsTracked.swap_resources, TraitsTracked.swap_deleters]

/-- Witness for C6 at a concrete input. -/
theorem swap_failure_rolls_back_witness :
    (swap true false false true ⟨1, 2, true⟩ ⟨3, 4, false⟩).thrown = true ∧
    (TraitsTracked.swap true false false true ⟨1, 2⟩ ⟨3, 4⟩).thrown = true ∧
    (swap true false false true ⟨1, 2, true⟩ ⟨3, 4, false⟩).a = ⟨1, 2, true⟩ ∧
    (swap true false false true ⟨1, 2, true⟩ ⟨3, 4, false⟩).b = ⟨3, 4, false⟩ ∧
    (TraitsTracked.swap true false false true ⟨1, 2⟩ ⟨3, 4⟩).a = ⟨1, 2⟩ ∧
    (TraitsTracked.swap true false false true ⟨1, 2⟩ ⟨3, 4⟩).b = ⟨3, 4⟩ := by
  have h := swap_failure_rolls_back true false false true
    ⟨1, 2, true⟩ ⟨3, 4, false⟩ ⟨1, 2⟩ ⟨3, 4⟩ (by decide) (by decide)
  exact ⟨by decide, by decide, h.1, h.2.1, h.2.2.1, h.2.2.2⟩

/-- C7 counterexample: with the conforming traits tr0 (default value -1,
allocated means nonnegative), a guard constructed from the resource value -2
is reachable, reports unallocated, and yet stores a resource different from
the traits default value, so unallocated does not coincide with holding the
default value. -/
theorem traits_unallocated_not_default_cex :
    tr0.is_allocated tr0.make_default = false ∧
    TraitsTracked.construct tr0 (-2) 7 false false =
      (CtorResult.ok ⟨-2, 7⟩, []) ∧
    TraitsTracked.is_allocated tr0 ⟨-2, 7⟩ = false ∧
    ¬ ((⟨-2, 7⟩ : TraitsTracked.Data).resource = tr0.make_default) := by
  decide

/-- C7 (amended): with a conforming traits capability, the allocation state
of a traits-tracked guard is derived by the traits predicate on the stored
resource with no separate boolean flag; marking the guard deallocated
reassigns the resource to the traits default value, after which the guard is
unallocated; and a guard whose resource equals the default value is always
unallocated.  A guard may however store a non-default value that the
predicate classifies as unallocated, so unallocated does not imply holding
the default value. -/
theorem traits_tracking_spec
    (tr : Traits) (d : TraitsTracked.Data)
    (hconf : tr.is_allocated tr.make_default = false) :
    TraitsTracked.is_allocated tr d = tr.is_allocated d.resource ∧
    TraitsTracked.set_deallocated tr d = ⟨tr.make_default, d.deleter⟩ ∧
    TraitsTracked.is_allocated tr (TraitsTracked.set_deallocated tr d) = false ∧
    (d.resource = tr.make_default → TraitsTracked.is_allocated tr d = false) := by
  refine ⟨rfl, rfl, ?_, ?_⟩
  · simp [TraitsTracked.is_allocated, TraitsTracked.set_deallocated, hconf]
  · intro hd
    simp [TraitsTracked.is_allocated, hd, hconf]

/-- Witness for the amended C7 at a concrete input. -/
theorem traits_tracking_spec_witness :
    tr0.is_allocated tr0.make_default = false ∧
    TraitsTracked.is_allocated tr0 ⟨3, 9⟩ = tr0.is_allocated 3 ∧
    TraitsTracked.set_deallocated tr0 ⟨3, 9⟩ = ⟨tr0.make_default, 9⟩ ∧
    TraitsTracked.is_allocated tr0 (TraitsTracked.set_deallocated tr0 ⟨3, 9⟩) = false ∧
    TraitsTracked.is_allocated tr0 ⟨-1, 9⟩ = false := by
  refine ⟨by decide, (traits_tracking_spec tr0 ⟨3, 9⟩ (by decide)).1,
    (traits_tracking_spec tr0 ⟨3, 9⟩ (by decide)).2.1,
    (traits_tracking_spec tr0 ⟨3, 9⟩ (by decide)).2.2.1,
    (traits_tracking_spec tr0 ⟨-1, 9⟩ (by decide)).2.2.2 rfl⟩

end BoostScope
